import Mathlib

/-!
# Webpack chunk 3159: the MDX page `reference/agentchat/contrib/vectordb/chromadb`

Shallow embedding of `src/assets/js/0de39c76.7daa60ed.js`. The chunk registers two
modules:

* module `49042`, the compiled MDX page: the constants `i` (frontMatter), `l`
  (contentTitle), `o` (metadata), `r` (assets), `d` (toc) and the functions `a`
  (`_createMdxContent`) and `h` (`MDXContent`, the default export);
* module `11151`, the MDX React glue: `c` (the empty component map), `i` (the
  context), `l` (`useMDXComponents`, exported as `a`) and `o` (`MDXProvider`,
  exported as `Z`).

JavaScript values are the inductive type `JSVal`. An object is kept as the list of
its property definitions in source order, read with "the last definition wins",
which is how an object literal with spreads is evaluated; the spread `{...x, ...y}`
is then the concatenation of the property lists of `x` and `y`.

The React runtime (modules `85893` and `67294`) is not part of this chunk. Its
`jsx` and `jsxs` are modelled after the production build of React 18: the props of
the element are the config of the call without the reserved keys `key`, `ref`,
`__self` and `__source`, completed by the `defaultProps` of the element type; the key
and the ref of an element are not recorded. `createElement` is only ever called with
the provider type and the config `{value: n}`, `useContext` reads the context value
from the `Runtime`, and `useMemo` returns the value of its callback.
-/

namespace Chunk3159

/-! ## JavaScript values -/

/-- The JavaScript values this chunk handles. Numbers are the integers (the chunk
holds no other number); `func` is a plain function value named by reference, with no
properties of its own; `host` is a value owned by React (the `Fragment` symbol, the
context provider); `elem` is a React element, recorded by its type and its props. -/
inductive JSVal where
  | undefined
  | null
  | bool (b : Bool)
  | num (n : Int)
  | str (s : String)
  | func (ref : String)
  | host (name : String)
  | obj (fields : List (String × JSVal))
  | arr (items : List JSVal)
  | elem (type : JSVal) (props : List (String × JSVal))
  deriving Repr, Inhabited

/-- The property definitions of an object, in the order in which they are made. -/
abbrev Fields := List (String × JSVal)

/-- Own-property lookup: the value of the last definition of `k`, if there is one. -/
def lookup? : Fields → String → Option JSVal
  | [], _ => none
  | (k', v) :: rest, k =>
    match lookup? rest k with
    | some w => some w
    | none => if k' = k then some v else none

/-- Whether the object has the own property `k`. -/
def hasProp (o : Fields) (k : String) : Bool := (lookup? o k).isSome

/-- The property read `o.k`: `undefined` when the object has no such property. -/
def getProp (o : Fields) (k : String) : JSVal := (lookup? o k).getD .undefined

/-- Index keys `"0"`, `"1"`, ... paired with the items of a list, from index `i`. -/
def indexed : Nat → List JSVal → Fields
  | _, [] => []
  | i, v :: vs => (toString i, v) :: indexed (i + 1) vs

/-- The properties that a spread `{...v}` copies: the own enumerable properties of
`v`. A plain object gives its properties, an array and a string their indexed items
(strings are indexed by character, which agrees with JavaScript on the Basic
Multilingual Plane), an element the two fields it is recorded by, and `undefined`,
`null`, booleans, numbers, plain functions and host values give none. -/
def ownProps : JSVal → Fields
  | .obj fields => fields
  | .arr items => indexed 0 items
  | .str s => indexed 0 (s.data.map fun ch => .str (String.singleton ch))
  | .elem type props => [("type", type), ("props", .obj props)]
  | _ => []

/-- JavaScript truthiness (`v ? _ : _`, `v || _`). -/
def truthy : JSVal → Bool
  | .undefined => false
  | .null => false
  | .bool b => b
  | .num n => n != 0
  | .str s => s != ""
  | _ => true

/-- Whether `typeof v` is `"function"`. -/
def isFunction : JSVal → Bool
  | .func _ => true
  | _ => false

/-- The property read `v.k` on a value that is an object; used to read the constant
records of the chunk. -/
def JSVal.get : JSVal → String → JSVal
  | .obj fields, k => getProp fields k
  | _, _ => .undefined

/-! ## The React runtime -/

/-- What the chunk reads from its environment while rendering: the value
`useContext(i)` returns (the value of the nearest provider of the MDX context `i`,
or the default `c` when there is none), and the result of calling a function value
on one argument. -/
structure Runtime where
  context : JSVal
  call : String → JSVal → JSVal

/-- React's `Fragment` (`s.Fragment` of module 85893). -/
def Fragment : JSVal := .host "react.fragment"

/-- The provider of the MDX context (`i.Provider` of module 11151). -/
def Provider : JSVal := .host "MDXContext.Provider"

/-- The config keys that `jsx` does not pass on as props. -/
def reservedKeys : List String := ["key", "ref", "__self", "__source"]

/-- Whether a value is `undefined` (`void 0 === v`). -/
def isUndefined : JSVal → Bool
  | .undefined => true
  | _ => false

/-- The config of a `jsx` call without its reserved keys. -/
def stripReserved (config : Fields) : Fields :=
  config.filter fun p => !reservedKeys.contains p.1

/-- The read `type.defaultProps` that `jsx` makes on an element type: strings, plain
functions and host values have none. -/
def defaultPropsOf : JSVal → JSVal
  | .obj fields => getProp fields "defaultProps"
  | _ => .undefined

/-- The loop `for (b in defaults) void 0 === d[b] && (d[b] = defaults[b])` over the
keys `keys` of `defaults`: every prop that is still `undefined` gets its default. -/
def fillDefaults (defaults : Fields) : Fields → Fields → Fields
  | [], props => props
  | (k, _) :: rest, props =>
    fillDefaults defaults rest
      (if isUndefined (getProp props k) then props ++ [(k, getProp defaults k)] else props)

/-- The props that `jsx` gives the element of type `type` made from `config`: the
config without the reserved keys, completed by `type.defaultProps`. -/
def elementProps (type : JSVal) (config : Fields) : Fields :=
  fillDefaults (ownProps (defaultPropsOf type)) (ownProps (defaultPropsOf type))
    (stripReserved config)

/-- The call `(0,s.jsx)(type, config)` of React's `jsx` (module 85893). -/
def jsx (type : JSVal) (config : Fields) : JSVal := .elem type (elementProps type config)

/-- The call `(0,s.jsxs)(type, config)`: the same function as `jsx`. -/
def jsxs (type : JSVal) (config : Fields) : JSVal := jsx type config

/-- The call `s.createElement(type, config, child)` with one child argument: the
element of that type whose props are `config` with `children` set to `child`. -/
def createElement (type : JSVal) (config : Fields) (child : JSVal) : JSVal :=
  .elem type (config ++ [("children", child)])

/-! ## Module 11151 -/

namespace M11151

/-- The constant `c = {}`: the default value of the MDX context. -/
def c : JSVal := .obj []

/-- The function `l` (`useMDXComponents`):
`n = useContext(i); return useMemo(() => "function" == typeof e ? e(n) : {...n, ...e}, [n, e])`. -/
def l (rt : Runtime) (e : JSVal) : JSVal :=
  let n := rt.context
  match e with
  | .func f => rt.call f n
  | _ => .obj (ownProps n ++ ownProps e)

/-- The function `o` (`MDXProvider`):
`n = e.disableParentContext ? ("function" == typeof e.components ? e.components(c) : e.components || c) : l(e.components)`,
then `createElement(i.Provider, {value: n}, e.children)`. -/
def o (rt : Runtime) (e : Fields) : JSVal :=
  let n :=
    if truthy (getProp e "disableParentContext") then
      match getProp e "components" with
      | .func f => rt.call f c
      | v => if truthy v then v else c
    else l rt (getProp e "components")
  createElement Provider [("value", n)] (getProp e "children")

/-- Export `a` of module 11151: `useMDXComponents`. -/
abbrev a := l

/-- Export `Z` of module 11151: `MDXProvider`. -/
abbrev Z := o

end M11151

/-! ## Module 49042 -/

namespace M49042

/-- The constant `i` (export `frontMatter`). -/
def i : JSVal := .obj [
  ("sidebar_label", .str "chromadb"),
  ("title", .str "agentchat.contrib.vectordb.chromadb")]

/-- The constant `l = void 0` (export `contentTitle`). -/
def l : JSVal := .undefined

/-- The constant `o` (export `metadata`). -/
def o : JSVal := .obj [
  ("id", .str "reference/agentchat/contrib/vectordb/chromadb"),
  ("title", .str "agentchat.contrib.vectordb.chromadb"),
  ("description", .str "ChromaVectorDB"),
  ("source", .str "@site/docs/reference/agentchat/contrib/vectordb/chromadb.md"),
  ("sourceDirName", .str "reference/agentchat/contrib/vectordb"),
  ("slug", .str "/reference/agentchat/contrib/vectordb/chromadb"),
  ("permalink", .str "/autogen/docs/reference/agentchat/contrib/vectordb/chromadb"),
  ("draft", .bool false),
  ("unlisted", .bool false),
  ("editUrl", .str "https://github.com/microsoft/autogen/edit/main/website/docs/reference/agentchat/contrib/vectordb/chromadb.md"),
  ("tags", .arr []),
  ("version", .str "current"),
  ("frontMatter", .obj [
    ("sidebar_label", .str "chromadb"),
    ("title", .str "agentchat.contrib.vectordb.chromadb")]),
  ("sidebar", .str "referenceSideBar"),
  ("previous", .obj [
    ("title", .str "base"),
    ("permalink", .str "/autogen/docs/reference/agentchat/contrib/vectordb/base")]),
  ("next", .obj [
    ("title", .str "utils"),
    ("permalink", .str "/autogen/docs/reference/agentchat/contrib/vectordb/utils")])]

/-- The constant `r = {}` (export `assets`). -/
def r : JSVal := .obj []

/-- The constant `d` (export `toc`). -/
def d : JSVal := .arr [
  .obj [("value", .str "ChromaVectorDB"), ("id", .str "chromavectordb"), ("level", .num 2)],
  .obj [("value", .str "__init__"), ("id", .str "__init__"), ("level", .num 3)],
  .obj [("value", .str "create_collection"), ("id", .str "create_collection"), ("level", .num 3)],
  .obj [("value", .str "get_collection"), ("id", .str "get_collection"), ("level", .num 3)],
  .obj [("value", .str "delete_collection"), ("id", .str "delete_collection"), ("level", .num 3)],
  .obj [("value", .str "insert_docs"), ("id", .str "insert_docs"), ("level", .num 3)],
  .obj [("value", .str "update_docs"), ("id", .str "update_docs"), ("level", .num 3)],
  .obj [("value", .str "delete_docs"), ("id", .str "delete_docs"), ("level", .num 3)],
  .obj [("value", .str "retrieve_docs"), ("id", .str "retrieve_docs"), ("level", .num 3)],
  .obj [("value", .str "get_docs_by_ids"), ("id", .str "get_docs_by_ids"), ("level", .num 3)]]

/-- The component map `n` of the function `a`:
`{a:"a", code:"code", h2:"h2", h3:"h3", li:"li", p:"p", pre:"pre", strong:"strong", ul:"ul", ...(0,c.a)(), ...e.components}`. -/
def a.n (rt : Runtime) (e : Fields) : Fields :=
  [("a", .str "a"), ("code", .str "code"), ("h2", .str "h2"), ("h3", .str "h3"),
   ("li", .str "li"), ("p", .str "p"), ("pre", .str "pre"), ("strong", .str "strong"),
   ("ul", .str "ul")]
    ++ ownProps (M11151.a rt .undefined) ++ ownProps (getProp e "components")

/-- The element tree that the function `a` returns, as a function of its component
map `n`. -/
def a.tree (n : Fields) : JSVal :=
  jsxs Fragment [("children", .arr [
    jsx (getProp n "h2") [("id", .str "chromavectordb"), ("children", .str "ChromaVectorDB")],
    .str "\n",
    jsx (getProp n "pre") [
      ("children", jsx (getProp n "code") [
        ("className", .str "language-python"),
        ("children", .str "class ChromaVectorDB(VectorDB)\n")])],
    .str "\n",
    jsx (getProp n "p") [("children", .str "A vector database that uses ChromaDB as the backend.")],
    .str "\n",
    jsx (getProp n "h3") [("id", .str "__init__"), ("children", .str "__init__")],
    .str "\n",
    jsx (getProp n "pre") [
      ("children", jsx (getProp n "code") [
        ("className", .str "language-python"),
        ("children", .str "def __init__(*,\n             client=None,\n             path: str = None,\n             embedding_function: Callable = None,\n             metadata: dict = None,\n             **kwargs) -> None\n")])],
    .str "\n",
    jsx (getProp n "p") [("children", .str "Initialize the vector database.")],
    .str "\n",
    jsxs (getProp n "p") [("children", .arr [
      jsx (getProp n "strong") [("children", .str "Arguments")],
      .str ":"])],
    .str "\n",
    jsxs (getProp n "ul") [("children", .arr [
      .str "\n",
      jsxs (getProp n "li") [("children", .arr [
        jsx (getProp n "code") [("children", .str "client")],
        .str " - chromadb.Client | The client object of the vector database. Default is None.\nIf provided, it will use the client object directly and ignore other arguments."])],
      .str "\n",
      jsxs (getProp n "li") [("children", .arr [
        jsx (getProp n "code") [("children", .str "path")],
        .str " - str | The path to the vector database. Default is None."])],
      .str "\n",
      jsxs (getProp n "li") [("children", .arr [
        jsx (getProp n "code") [("children", .str "embedding_function")],
        .str " - Callable | The embedding function used to generate the vector representation\nof the documents. Default is None, SentenceTransformerEmbeddingFunction(\"all-MiniLM-L6-v2\") will be used."])],
      .str "\n",
      jsxs (getProp n "li") [("children", .arr [
        jsx (getProp n "code") [("children", .str "metadata")],
        .str " - dict | The metadata of the vector database. Default is None. If None, it will use this"])],
      .str "\n",
      jsxs (getProp n "li") [("children", .arr [
        jsx (getProp n "code") [("children", .str "setting")],
        .str " - \x7b\"hnsw:space\": \"ip\", \"hnsw:construction_ef\": 30, \"hnsw:M\": 32\x7d. For more details of\nthe metadata, please refer to ",
        jsx (getProp n "a") [
          ("href", .str "https://github.com/nmslib/hnswlib#supported-distances"),
          ("children", .str "distances")],
        .str ",\n",
        jsx (getProp n "a") [
          ("href", .str "https://github.com/chroma-core/chroma/blob/566bc80f6c8ee29f7d99b6322654f32183c368c4/chromadb/segment/impl/vector/local_hnsw.py#L184"),
          ("children", .str "hnsw")],
        .str ",\nand ",
        jsx (getProp n "a") [
          ("href", .str "https://github.com/nmslib/hnswlib/blob/master/ALGO_PARAMS.md"),
          ("children", .str "ALGO_PARAMS")],
        .str "."])],
      .str "\n",
      jsxs (getProp n "li") [("children", .arr [
        jsx (getProp n "code") [("children", .str "kwargs")],
        .str " - dict | Additional keyword arguments."])],
      .str "\n"])],
    .str "\n",
    jsxs (getProp n "p") [("children", .arr [
      jsx (getProp n "strong") [("children", .str "Returns")],
      .str ":"])],
    .str "\n",
    jsx (getProp n "p") [("children", .str "None")],
    .str "\n",
    jsx (getProp n "h3") [("id", .str "create_collection"), ("children", .str "create_collection")],
    .str "\n",
    jsx (getProp n "pre") [
      ("children", jsx (getProp n "code") [
        ("className", .str "language-python"),
        ("children", .str "def create_collection(collection_name: str,\n                      overwrite: bool = False,\n                      get_or_create: bool = True) -> Collection\n")])],
    .str "\n",
    jsx (getProp n "p") [
      ("children", .str "Create a collection in the vector database.\nCase 1. if the collection does not exist, create the collection.\nCase 2. the collection exists, if overwrite is True, it will overwrite the collection.\nCase 3. the collection exists and overwrite is False, if get_or_create is True, it will get the collection,\notherwise it raise a ValueError.")],
    .str "\n",
    jsxs (getProp n "p") [("children", .arr [
      jsx (getProp n "strong") [("children", .str "Arguments")],
      .str ":"])],
    .str "\n",
    jsxs (getProp n "ul") [("children", .arr [
      .str "\n",
      jsxs (getProp n "li") [("children", .arr [
        jsx (getProp n "code") [("children", .str "collection_name")],
        .str " - str | The name of the collection."])],
      .str "\n",
      jsxs (getProp n "li") [("children", .arr [
        jsx (getProp n "code") [("children", .str "overwrite")],
        .str " - bool | Whether to overwrite the collection if it exists. Default is False."])],
      .str "\n",
      jsxs (getProp n "li") [("children", .arr [
        jsx (getProp n "code") [("children", .str "get_or_create")],
        .str " - bool | Whether to get the collection if it exists. Default is True."])],
      .str "\n"])],
    .str "\n",
    jsxs (getProp n "p") [("children", .arr [
      jsx (getProp n "strong") [("children", .str "Returns")],
      .str ":"])],
    .str "\n",
    jsx (getProp n "p") [("children", .str "Collection | The collection object.")],
    .str "\n",
    jsx (getProp n "h3") [("id", .str "get_collection"), ("children", .str "get_collection")],
    .str "\n",
    jsx (getProp n "pre") [
      ("children", jsx (getProp n "code") [
        ("className", .str "language-python"),
        ("children", .str "def get_collection(collection_name: str = None) -> Collection\n")])],
    .str "\n",
    jsx (getProp n "p") [("children", .str "Get the collection from the vector database.")],
    .str "\n",
    jsxs (getProp n "p") [("children", .arr [
      jsx (getProp n "strong") [("children", .str "Arguments")],
      .str ":"])],
    .str "\n",
    jsxs (getProp n "ul") [("children", .arr [
      .str "\n",
      jsxs (getProp n "li") [("children", .arr [
        jsx (getProp n "code") [("children", .str "collection_name")],
        .str " - str | The name of the collection. Default is None. If None, return the\ncurrent active collection."])],
      .str "\n"])],
    .str "\n",
    jsxs (getProp n "p") [("children", .arr [
      jsx (getProp n "strong") [("children", .str "Returns")],
      .str ":"])],
    .str "\n",
    jsx (getProp n "p") [("children", .str "Collection | The collection object.")],
    .str "\n",
    jsx (getProp n "h3") [("id", .str "delete_collection"), ("children", .str "delete_collection")],
    .str "\n",
    jsx (getProp n "pre") [
      ("children", jsx (getProp n "code") [
        ("className", .str "language-python"),
        ("children", .str "def delete_collection(collection_name: str) -> None\n")])],
    .str "\n",
    jsx (getProp n "p") [("children", .str "Delete the collection from the vector database.")],
    .str "\n",
    jsxs (getProp n "p") [("children", .arr [
      jsx (getProp n "strong") [("children", .str "Arguments")],
      .str ":"])],
    .str "\n",
    jsxs (getProp n "ul") [("children", .arr [
      .str "\n",
      jsxs (getProp n "li") [("children", .arr [
        jsx (getProp n "code") [("children", .str "collection_name")],
        .str " - str | The name of the collection."])],
      .str "\n"])],
    .str "\n",
    jsxs (getProp n "p") [("children", .arr [
      jsx (getProp n "strong") [("children", .str "Returns")],
      .str ":"])],
    .str "\n",
    jsx (getProp n "p") [("children", .str "None")],
    .str "\n",
    jsx (getProp n "h3") [("id", .str "insert_docs"), ("children", .str "insert_docs")],
    .str "\n",
    jsx (getProp n "pre") [
      ("children", jsx (getProp n "code") [
        ("className", .str "language-python"),
        ("children", .str "def insert_docs(docs: List[Document],\n                collection_name: str = None,\n                upsert: bool = False) -> None\n")])],
    .str "\n",
    jsx (getProp n "p") [("children", .str "Insert documents into the collection of the vector database.")],
    .str "\n",
    jsxs (getProp n "p") [("children", .arr [
      jsx (getProp n "strong") [("children", .str "Arguments")],
      .str ":"])],
    .str "\n",
    jsxs (getProp n "ul") [("children", .arr [
      .str "\n",
      jsxs (getProp n "li") [("children", .arr [
        jsx (getProp n "code") [("children", .str "docs")],
        .str " - List[Document] | A list of documents. Each document is a TypedDict ",
        jsx (getProp n "code") [("children", .str "Document")],
        .str "."])],
      .str "\n",
      jsxs (getProp n "li") [("children", .arr [
        jsx (getProp n "code") [("children", .str "collection_name")],
        .str " - str | The name of the collection. Default is None."])],
      .str "\n",
      jsxs (getProp n "li") [("children", .arr [
        jsx (getProp n "code") [("children", .str "upsert")],
        .str " - bool | Whether to update the document if it exists. Default is False."])],
      .str "\n",
      jsxs (getProp n "li") [("children", .arr [
        jsx (getProp n "code") [("children", .str "kwargs")],
        .str " - Dict | Additional keyword arguments."])],
      .str "\n"])],
    .str "\n",
    jsxs (getProp n "p") [("children", .arr [
      jsx (getProp n "strong") [("children", .str "Returns")],
      .str ":"])],
    .str "\n",
    jsx (getProp n "p") [("children", .str "None")],
    .str "\n",
    jsx (getProp n "h3") [("id", .str "update_docs"), ("children", .str "update_docs")],
    .str "\n",
    jsx (getProp n "pre") [
      ("children", jsx (getProp n "code") [
        ("className", .str "language-python"),
        ("children", .str "def update_docs(docs: List[Document], collection_name: str = None) -> None\n")])],
    .str "\n",
    jsx (getProp n "p") [("children", .str "Update documents in the collection of the vector database.")],
    .str "\n",
    jsxs (getProp n "p") [("children", .arr [
      jsx (getProp n "strong") [("children", .str "Arguments")],
      .str ":"])],
    .str "\n",
    jsxs (getProp n "ul") [("children", .arr [
      .str "\n",
      jsxs (getProp n "li") [("children", .arr [
        jsx (getProp n "code") [("children", .str "docs")],
        .str " - List[Document] | A list of documents."])],
      .str "\n",
      jsxs (getProp n "li") [("children", .arr [
        jsx (getProp n "code") [("children", .str "collection_name")],
        .str " - str | The name of the collection. Default is None."])],
      .str "\n"])],
    .str "\n",
    jsxs (getProp n "p") [("children", .arr [
      jsx (getProp n "strong") [("children", .str "Returns")],
      .str ":"])],
    .str "\n",
    jsx (getProp n "p") [("children", .str "None")],
    .str "\n",
    jsx (getProp n "h3") [("id", .str "delete_docs"), ("children", .str "delete_docs")],
    .str "\n",
    jsx (getProp n "pre") [
      ("children", jsx (getProp n "code") [
        ("className", .str "language-python"),
        ("children", .str "def delete_docs(ids: List[ItemID],\n                collection_name: str = None,\n                **kwargs) -> None\n")])],
    .str "\n",
    jsx (getProp n "p") [("children", .str "Delete documents from the collection of the vector database.")],
    .str "\n",
    jsxs (getProp n "p") [("children", .arr [
      jsx (getProp n "strong") [("children", .str "Arguments")],
      .str ":"])],
    .str "\n",
    jsxs (getProp n "ul") [("children", .arr [
      .str "\n",
      jsxs (getProp n "li") [("children", .arr [
        jsx (getProp n "code") [("children", .str "ids")],
        .str " - List[ItemID] | A list of document ids. Each id is a typed ",
        jsx (getProp n "code") [("children", .str "ItemID")],
        .str "."])],
      .str "\n",
      jsxs (getProp n "li") [("children", .arr [
        jsx (getProp n "code") [("children", .str "collection_name")],
        .str " - str | The name of the collection. Default is None."])],
      .str "\n",
      jsxs (getProp n "li") [("children", .arr [
        jsx (getProp n "code") [("children", .str "kwargs")],
        .str " - Dict | Additional keyword arguments."])],
      .str "\n"])],
    .str "\n",
    jsxs (getProp n "p") [("children", .arr [
      jsx (getProp n "strong") [("children", .str "Returns")],
      .str ":"])],
    .str "\n",
    jsx (getProp n "p") [("children", .str "None")],
    .str "\n",
    jsx (getProp n "h3") [("id", .str "retrieve_docs"), ("children", .str "retrieve_docs")],
    .str "\n",
    jsx (getProp n "pre") [
      ("children", jsx (getProp n "code") [
        ("className", .str "language-python"),
        ("children", .str "def retrieve_docs(queries: List[str],\n                  collection_name: str = None,\n                  n_results: int = 10,\n                  distance_threshold: float = -1,\n                  **kwargs) -> QueryResults\n")])],
    .str "\n",
    jsx (getProp n "p") [
      ("children", .str "Retrieve documents from the collection of the vector database based on the queries.")],
    .str "\n",
    jsxs (getProp n "p") [("children", .arr [
      jsx (getProp n "strong") [("children", .str "Arguments")],
      .str ":"])],
    .str "\n",
    jsxs (getProp n "ul") [("children", .arr [
      .str "\n",
      jsxs (getProp n "li") [("children", .arr [
        jsx (getProp n "code") [("children", .str "queries")],
        .str " - List[str] | A list of queries. Each query is a string."])],
      .str "\n",
      jsxs (getProp n "li") [("children", .arr [
        jsx (getProp n "code") [("children", .str "collection_name")],
        .str " - str | The name of the collection. Default is None."])],
      .str "\n",
      jsxs (getProp n "li") [("children", .arr [
        jsx (getProp n "code") [("children", .str "n_results")],
        .str " - int | The number of relevant documents to return. Default is 10."])],
      .str "\n",
      jsxs (getProp n "li") [("children", .arr [
        jsx (getProp n "code") [("children", .str "distance_threshold")],
        .str " - float | The threshold for the distance score, only distance smaller than it will be\nreturned. Don\x27t filter with it if < 0. Default is -1."])],
      .str "\n",
      jsxs (getProp n "li") [("children", .arr [
        jsx (getProp n "code") [("children", .str "kwargs")],
        .str " - Dict | Additional keyword arguments."])],
      .str "\n"])],
    .str "\n",
    jsxs (getProp n "p") [("children", .arr [
      jsx (getProp n "strong") [("children", .str "Returns")],
      .str ":"])],
    .str "\n",
    jsx (getProp n "p") [
      ("children", .str "QueryResults | The query results. Each query result is a list of list of tuples containing the document and\nthe distance.")],
    .str "\n",
    jsx (getProp n "h3") [("id", .str "get_docs_by_ids"), ("children", .str "get_docs_by_ids")],
    .str "\n",
    jsx (getProp n "pre") [
      ("children", jsx (getProp n "code") [
        ("className", .str "language-python"),
        ("children", .str "def get_docs_by_ids(ids: List[ItemID] = None,\n                    collection_name: str = None,\n                    include=None,\n                    **kwargs) -> List[Document]\n")])],
    .str "\n",
    jsx (getProp n "p") [
      ("children", .str "Retrieve documents from the collection of the vector database based on the ids.")],
    .str "\n",
    jsxs (getProp n "p") [("children", .arr [
      jsx (getProp n "strong") [("children", .str "Arguments")],
      .str ":"])],
    .str "\n",
    jsxs (getProp n "ul") [("children", .arr [
      .str "\n",
      jsxs (getProp n "li") [("children", .arr [
        jsx (getProp n "code") [("children", .str "ids")],
        .str " - List[ItemID] | A list of document ids. If None, will return all the documents. Default is None."])],
      .str "\n",
      jsxs (getProp n "li") [("children", .arr [
        jsx (getProp n "code") [("children", .str "collection_name")],
        .str " - str | The name of the collection. Default is None."])],
      .str "\n",
      jsxs (getProp n "li") [("children", .arr [
        jsx (getProp n "code") [("children", .str "include")],
        .str " - List[str] | The fields to include. Default is None.\nIf None, will include [\"metadatas\", \"documents\"], ids will always be included."])],
      .str "\n",
      jsxs (getProp n "li") [("children", .arr [
        jsx (getProp n "code") [("children", .str "kwargs")],
        .str " - dict | Additional keyword arguments."])],
      .str "\n"])],
    .str "\n",
    jsxs (getProp n "p") [("children", .arr [
      jsx (getProp n "strong") [("children", .str "Returns")],
      .str ":"])],
    .str "\n",
    jsx (getProp n "p") [("children", .str "List[Document] | The results.")]])]

/-- The function `a` (`_createMdxContent`): `const n = {...}; return (0,s.jsxs)(s.Fragment, {...})`. -/
def a (rt : Runtime) (e : Fields) : JSVal :=
  a.tree (a.n rt e)

/-- The function value `a`, as `h` passes it to `jsx` for an element type. -/
def a.ref : JSVal := .func "_createMdxContent"

/-- The function `h` (`MDXContent`, the default export), with its default parameter `e = {}`:
`const {wrapper: n} = {...(0,c.a)(), ...e.components};`
`return n ? (0,s.jsx)(n, {...e, children: (0,s.jsx)(a, {...e})}) : a(e)`. -/
def h (rt : Runtime) (arg : Option Fields) : JSVal :=
  let e : Fields := arg.getD []
  let n := getProp (ownProps (M11151.a rt .undefined) ++ ownProps (getProp e "components")) "wrapper"
  if truthy n then jsx n (e ++ [("children", jsx a.ref e)]) else a rt e

/-- Export `frontMatter` of module 49042. -/
abbrev frontMatter := i

/-- Export `contentTitle` of module 49042. -/
abbrev contentTitle := l

/-- Export `metadata` of module 49042. -/
abbrev metadata := o

/-- Export `assets` of module 49042. -/
abbrev assets := r

/-- Export `toc` of module 49042. -/
abbrev toc := d

/-- Export `default` of module 49042: `MDXContent`. -/
abbrev MDXContent := h

end M49042

/-! ## Reading element trees -/

/-- The type of an element (`undefined` for a value that is no element). -/
def JSVal.type : JSVal → JSVal
  | .elem type _ => type
  | _ => .undefined

/-- The props of an element (none for a value that is no element). -/
def JSVal.props : JSVal → Fields
  | .elem _ props => props
  | _ => []

mutual
/-- The elements of a tree in document order: an element comes before the elements
nested in its props (its children), the items of an array come left to right. -/
def elements : JSVal → List JSVal
  | .elem type props => .elem type props :: elementsFields props
  | .arr items => elementsList items
  | _ => []
/-- The elements of a list of nodes, left to right. -/
def elementsList : List JSVal → List JSVal
  | [] => []
  | v :: vs => elements v ++ elementsList vs
/-- The elements nested in the values of a property list, left to right. -/
def elementsFields : Fields → List JSVal
  | [] => []
  | (_, v) :: ps => elements v ++ elementsFields ps
end

/-- The nine tags for which `a` creates elements. -/
def tags : List String := ["a", "code", "h2", "h3", "li", "p", "pre", "strong", "ul"]

/-- The items of an array (none for a value that is no array). -/
def JSVal.items : JSVal → List JSVal
  | .arr items => items
  | _ => []

/-- Whether an element has the plain tag `t` for its type. -/
def isTag (t : String) (v : JSVal) : Bool :=
  match v.type with
  | .str s => s == t
  | _ => false

/-- The heading level of an element: 2 for the tag `h2`, 3 for the tag `h3`. -/
def headingLevel (v : JSVal) : Option Int :=
  match v.type with
  | .str s => if s = "h2" then some 2 else if s = "h3" then some 3 else none
  | _ => none

/-- The heading elements (tags `h2` and `h3`) of a tree, in document order. -/
def headings (t : JSVal) : List JSVal :=
  (elements t).filter fun v => (headingLevel v).isSome

/-- A table-of-contents entry agrees with a heading element: the entry's `id` is the
element's `id` prop, its `level` is the heading level of the element, and its `value` is
the element's text (its `children` prop). -/
def Agrees (entry heading : JSVal) : Prop :=
  entry.get "id" = getProp heading.props "id" ∧
  (headingLevel heading).map JSVal.num = some (entry.get "level") ∧
  entry.get "value" = getProp heading.props "children"

/-- The table-of-contents entry `{value, id, level}` read off a heading element. -/
def tocEntry (v : JSVal) : JSVal :=
  .obj [("value", getProp v.props "children"), ("id", getProp v.props "id"),
        ("level", .num ((headingLevel v).getD 0))]

/-- The default tag mapping: the component map `n` of `a` sends each of the nine tags
to its plain tag name. -/
def DefaultTags (rt : Runtime) (e : Fields) : Prop :=
  ∀ t ∈ tags, getProp (M49042.a.n rt e) t = .str t

/-- The element type that the resolution order gives the tag `t`: the entry of
`e.components` when it has that key, otherwise the entry of the context component map
when it has that key, otherwise the plain tag name. -/
def resolveTag (rt : Runtime) (e : Fields) (t : String) : JSVal :=
  if hasProp (ownProps (getProp e "components")) t then
    getProp (ownProps (getProp e "components")) t
  else if hasProp (ownProps rt.context) t then getProp (ownProps rt.context) t
  else .str t

mutual
/-- The tree `v` with every element that has a plain tag `t` for its type made anew by
`jsx` with the type `f t`, from the same props. -/
def retype (f : String → JSVal) : JSVal → JSVal
  | .elem type props =>
    match type with
    | .str t => jsx (f t) (retypeFields f props)
    | other => .elem other (retypeFields f props)
  | .arr items => .arr (retypeList f items)
  | v => v
/-- The nodes of a list, retyped. -/
def retypeList (f : String → JSVal) : List JSVal → List JSVal
  | [] => []
  | v :: vs => retype f v :: retypeList f vs
/-- The values of a property list, retyped. -/
def retypeFields (f : String → JSVal) : Fields → Fields
  | [] => []
  | (k, v) :: ps => (k, retype f v) :: retypeFields f ps
end

/-- Whether the type of an element is `Fragment` or the plain name of one of the nine
tags. -/
def hasPlainType (v : JSVal) : Bool :=
  match v.type with
  | .host name => name == "react.fragment"
  | .str t => tags.contains t
  | _ => false

/-- Decides the signature property of one heading element, given the elements that
come after it in document order: the heading's text is a string `name`, the first
`pre` element after it has for its only prop the child element `code`, which contains
no element, has the class `language-python` and a text that begins with `def name(`. -/
def signatureCheck (heading : JSVal) (after : List JSVal) : Bool :=
  match getProp heading.props "children", after.find? (isTag "pre") with
  | .str name, some (.elem _ [(key, .elem (.str ty) cps)]) =>
    key == "children" && ty == "code" && (elementsFields cps).isEmpty &&
      (match getProp cps "className", getProp cps "children" with
       | .str cls, .str text =>
         cls == "language-python" && ("def " ++ name ++ "(").data.isPrefixOf text.data
       | _, _ => false)
  | _, _ => false

/-- Decides the signature property for an element when it is a level-3 heading. -/
def headingCheck (v : JSVal) (after : List JSVal) : Bool :=
  headingLevel v != some 3 || signatureCheck v after

/-- Whether `check` holds of every element of the list together with the elements
after it. -/
def checkSplits (check : JSVal → List JSVal → Bool) : List JSVal → Bool
  | [] => true
  | v :: vs => check v vs && checkSplits check vs

/-- The runtime of a page rendered outside any provider: the context has its default
value `c`, and no function value is ever called. -/
def Runtime.default : Runtime := ⟨M11151.c, fun _ _ => .undefined⟩

/-- The merged component map `{...context components, ...e.components}` that the
claims about `MDXContent` speak of. -/
def mergedComponents (rt : Runtime) (e : Fields) : Fields :=
  ownProps rt.context ++ ownProps (getProp e "components")

/-- A path with every `/` replaced by `.`. -/
def slashesToDots (s : String) : String :=
  ⟨s.data.map fun ch => if ch = '/' then '.' else ch⟩

/-- Whether a string is a single path segment: it holds no `/`. -/
def IsSegment (s : String) : Prop := '/' ∉ s.data

instance (s : String) : Decidable (IsSegment s) := by
  unfold IsSegment
  exact inferInstance

/-! ## Objects and spreads -/

theorem lookup?_append (xs ys : Fields) (k : String) :
    lookup? (xs ++ ys) k = (lookup? ys k).orElse fun _ => lookup? xs k := by
  induction xs with
  | nil =>
    rw [List.nil_append]
    cases lookup? ys k <;> simp [lookup?]
  | cons x xs ih =>
    obtain ⟨k', v⟩ := x
    rw [List.cons_append, lookup?, ih]
    cases lookup? ys k <;> simp [lookup?]

theorem hasProp_append (xs ys : Fields) (k : String) :
    hasProp (xs ++ ys) k = (hasProp xs k || hasProp ys k) := by
  unfold hasProp
  rw [lookup?_append]
  cases lookup? ys k <;> simp

theorem getProp_append (xs ys : Fields) (k : String) :
    getProp (xs ++ ys) k = if hasProp ys k then getProp ys k else getProp xs k := by
  unfold getProp hasProp
  rw [lookup?_append]
  cases lookup? ys k <;> simp

theorem lookup?_append_singleton_of_ne (xs : Fields) (k key : String) (v : JSVal)
    (hne : k ≠ key) : lookup? (xs ++ [(key, v)]) k = lookup? xs k := by
  rw [lookup?_append]
  have hk : ¬ key = k := fun hk => hne hk.symm
  simp [lookup?, hk]

theorem getProp_append_singleton (xs : Fields) (key : String) (v : JSVal) :
    getProp (xs ++ [(key, v)]) key = v := by
  rw [getProp_append]
  simp [hasProp, getProp, lookup?]

theorem ownProps_useMDXComponents_undefined (rt : Runtime) :
    ownProps (M11151.a rt .undefined) = ownProps rt.context := by
  simp [M11151.l, ownProps]

/-! ## The props of an element made by `jsx` -/

theorem lookup?_stripReserved (config : Fields) (k : String) :
    lookup? (stripReserved config) k = if k ∈ reservedKeys then none else lookup? config k := by
  induction config with
  | nil => simp [stripReserved, lookup?]
  | cons x xs ih =>
    obtain ⟨k', v⟩ := x
    unfold stripReserved at ih ⊢
    rw [List.filter_cons]
    by_cases hk' : k' ∈ reservedKeys
    · have hc : reservedKeys.contains k' = true := by simpa using hk'
      simp only [hc, Bool.not_true, Bool.false_eq_true, if_false]
      rw [ih]
      by_cases hk : k ∈ reservedKeys
      · simp [hk]
      · have hne : ¬ k' = k := fun h => hk (h ▸ hk')
        simp only [hk, if_false, lookup?, hne]
        cases lookup? xs k <;> rfl
    · have hc : reservedKeys.contains k' = false := by simpa using hk'
      simp only [hc, Bool.not_false, if_true]
      rw [lookup?, ih]
      by_cases hk : k ∈ reservedKeys
      · have hne : ¬ k' = k := fun h => hk' (h ▸ hk)
        simp [hk, hne]
      · simp [hk, lookup?]

theorem getProp_stripReserved (config : Fields) (k : String) :
    getProp (stripReserved config) k
      = if k ∈ reservedKeys then .undefined else getProp config k := by
  unfold getProp
  rw [lookup?_stripReserved]
  split <;> rfl

theorem getProp_append_pair (props : Fields) (key k : String) (v : JSVal) :
    getProp (props ++ [(key, v)]) k = if key = k then v else getProp props k := by
  rw [getProp_append]
  by_cases hk : key = k <;> simp [hasProp, getProp, lookup?, hk]

theorem eq_undefined_of_isUndefined (v : JSVal) (hv : isUndefined v = true) :
    v = .undefined := by
  cases v <;> simp_all [isUndefined]

theorem getProp_eq_undefined_of_not_any (defaults : Fields) (k : String)
    (hk : (defaults.any fun p => p.1 == k) = false) : getProp defaults k = .undefined := by
  have hnone : lookup? defaults k = none := by
    induction defaults with
    | nil => rfl
    | cons x xs ih =>
      obtain ⟨k', v⟩ := x
      simp only [List.any_cons, Bool.or_eq_false_iff, beq_eq_false_iff_ne, ne_eq] at hk
      simp [lookup?, ih hk.2, hk.1]
  simp [getProp, hnone]

theorem getProp_fillDefaults (defaults keys props : Fields) (k : String) :
    getProp (fillDefaults defaults keys props) k
      = if isUndefined (getProp props k) && keys.any (fun p => p.1 == k)
        then getProp defaults k else getProp props k := by
  induction keys generalizing props with
  | nil => simp [fillDefaults]
  | cons x xs ih =>
    obtain ⟨k0, v0⟩ := x
    rw [fillDefaults, ih]
    by_cases hk : k0 = k
    · subst hk
      by_cases hu : isUndefined (getProp props k0) = true
      · simp only [hu, if_true, getProp_append_pair, List.any_cons, beq_self_eq_true,
          Bool.true_or, Bool.and_true]
        split <;> rfl
      · simp [hu]
    · have hget : getProp (if isUndefined (getProp props k0) = true
          then props ++ [(k0, getProp defaults k0)] else props) k = getProp props k := by
        split
        · rw [getProp_append_pair, if_neg hk]
        · rfl
      have hb : (k0 == k) = false := by simpa using hk
      rw [hget]
      simp only [List.any_cons, hb, Bool.false_or]

theorem getProp_elementProps (type : JSVal) (config : Fields) (k : String) :
    getProp (elementProps type config) k
      = if isUndefined (getProp (stripReserved config) k)
        then getProp (ownProps (defaultPropsOf type)) k
        else getProp (stripReserved config) k := by
  unfold elementProps
  rw [getProp_fillDefaults]
  by_cases hu : isUndefined (getProp (stripReserved config) k) = true
  · rw [hu]
    simp only [Bool.true_and, if_true]
    split
    · rfl
    · rename_i ha
      rw [getProp_eq_undefined_of_not_any _ k ((Bool.not_eq_true _).mp ha)]
      exact eq_undefined_of_isUndefined _ hu
  · simp [hu]

theorem elementProps_func (f : String) (config : Fields) :
    elementProps (.func f) config = stripReserved config := rfl

/-! ## Module 11151: `useMDXComponents` and `MDXProvider` -/

/-- Claim C9. For every context value `n` and every argument `e`, `useMDXComponents`
returns `e(n)` when `e` is a function; otherwise it returns the object `{...n, ...e}`,
which has exactly the keys of `n` and of `e`, takes the value of `e` on every key of `e`
and the value of `n` on every other key; with `e` undefined and `n` a component map the
result is `n`. -/
theorem useMDXComponents_spec (rt : Runtime) (e : JSVal) :
    (∀ f, e = .func f → M11151.a rt e = rt.call f rt.context) ∧
    (isFunction e = false →
      ∃ m, M11151.a rt e = .obj m ∧
        (∀ k, hasProp m k = (hasProp (ownProps rt.context) k || hasProp (ownProps e) k)) ∧
        (∀ k, hasProp (ownProps e) k = true → getProp m k = getProp (ownProps e) k) ∧
        (∀ k, hasProp (ownProps e) k = false → getProp m k = getProp (ownProps rt.context) k)) ∧
    (∀ n, rt.context = .obj n → e = .undefined → M11151.a rt e = rt.context) := by
  refine ⟨?_, ?_, ?_⟩
  · rintro f rfl
    rfl
  · intro hf
    refine ⟨ownProps rt.context ++ ownProps e, ?_, ?_, ?_, ?_⟩
    · cases e <;> first | rfl | simp [isFunction] at hf
    · intro k
      exact hasProp_append _ _ k
    · intro k hk
      rw [getProp_append, if_pos hk]
    · intro k hk
      rw [getProp_append, hk]
      simp
  · rintro n hn rfl
    simp [M11151.l, hn, ownProps]

/-- Instance of claim C9 at the context `{h2: H}` and the argument `{p: P}` (a merge),
at the function argument `f`, and at no argument. -/
theorem useMDXComponents_spec_witness :
    M11151.a ⟨.obj [("h2", .func "H")], fun _ _ => .null⟩ (.func "f") = .null ∧
    M11151.a ⟨.obj [("h2", .func "H")], fun _ _ => .null⟩ (.obj [("p", .func "P")])
      = .obj [("h2", .func "H"), ("p", .func "P")] ∧
    M11151.a ⟨.obj [("h2", .func "H")], fun _ _ => .null⟩ .undefined
      = .obj [("h2", .func "H")] :=
  ⟨(useMDXComponents_spec ⟨.obj [("h2", .func "H")], fun _ _ => .null⟩ (.func "f")).1 "f" rfl,
   rfl,
   (useMDXComponents_spec ⟨.obj [("h2", .func "H")], fun _ _ => .null⟩ .undefined).2.2
     [("h2", .func "H")] rfl rfl⟩

/-- Claim C10. For every props object `e`, `MDXProvider` returns the provider element
whose children are `e.children` and whose value, when `e.disableParentContext` is
truthy, does not depend on the parent context: it is `e.components` applied to the empty
map when `e.components` is a function, `e.components` when that is a truthy
non-function, and the empty map otherwise. When `e.disableParentContext` is falsy the
value is `useMDXComponents(e.components)`, which for a non-function `e.components` is
the parent context merged with it. -/
theorem MDXProvider_spec (rt : Runtime) (e : Fields) :
    (M11151.Z rt e).type = Provider ∧
    getProp (M11151.Z rt e).props "children" = getProp e "children" ∧
    (truthy (getProp e "disableParentContext") = true →
      (∀ f, getProp e "components" = .func f →
        getProp (M11151.Z rt e).props "value" = rt.call f (.obj [])) ∧
      (isFunction (getProp e "components") = false → truthy (getProp e "components") = true →
        getProp (M11151.Z rt e).props "value" = getProp e "components") ∧
      (isFunction (getProp e "components") = false → truthy (getProp e "components") = false →
        getProp (M11151.Z rt e).props "value" = .obj []) ∧
      (∀ parent, M11151.Z ⟨parent, rt.call⟩ e = M11151.Z rt e)) ∧
    (truthy (getProp e "disableParentContext") = false →
      getProp (M11151.Z rt e).props "value" = M11151.a rt (getProp e "components") ∧
      (isFunction (getProp e "components") = false →
        getProp (M11151.Z rt e).props "value"
          = .obj (ownProps rt.context ++ ownProps (getProp e "components")))) := by
  have hval : ∀ v w : JSVal, getProp [("value", v), ("children", w)] "value" = v := by
    intro v w
    simp [getProp, lookup?]
  refine ⟨rfl, ?_, ?_, ?_⟩
  · simp only [M11151.o, createElement, JSVal.props]
    exact getProp_append_singleton _ _ _
  · intro hd
    refine ⟨?_, ?_, ?_, ?_⟩
    · intro f hf
      simp only [M11151.o, createElement, JSVal.props, hd, hf, if_true, List.cons_append, List.nil_append, hval]
      rfl
    · intro hnf ht
      simp only [M11151.o, createElement, JSVal.props, hd, if_true, List.cons_append, List.nil_append, hval]
      cases hc : getProp e "components" <;> simp_all [isFunction]
    · intro hnf ht
      simp only [M11151.o, createElement, JSVal.props, hd, if_true, List.cons_append, List.nil_append, hval]
      cases hc : getProp e "components" <;> simp_all [isFunction, truthy, M11151.c]
    · intro parent
      simp only [M11151.o, hd, if_true]
  · intro hd
    have hv : getProp (M11151.Z rt e).props "value" = M11151.a rt (getProp e "components") := by
      simp only [M11151.o, createElement, JSVal.props, hd, List.cons_append, List.nil_append, hval]
      rfl
    refine ⟨hv, ?_⟩
    intro hnf
    rw [hv]
    cases hc : getProp e "components" <;> first | rfl | simp [hc, isFunction] at hnf

/-- Instance of claim C10 at a props object with `disableParentContext: true`, a
truthy non-function `components` and the child `"x"`, under a parent context `{p: P}`. -/
theorem MDXProvider_spec_witness :
    getProp (M11151.Z ⟨.obj [("p", .func "P")], fun _ _ => .null⟩
      [("disableParentContext", .bool true), ("components", .obj [("h2", .func "H")]),
       ("children", .str "x")]).props "value" = .obj [("h2", .func "H")] ∧
    getProp (M11151.Z ⟨.obj [("p", .func "P")], fun _ _ => .null⟩
      [("components", .obj [("h2", .func "H")])]).props "value"
      = .obj [("p", .func "P"), ("h2", .func "H")] :=
  ⟨((MDXProvider_spec ⟨.obj [("p", .func "P")], fun _ _ => .null⟩
      [("disableParentContext", .bool true), ("components", .obj [("h2", .func "H")]),
       ("children", .str "x")]).2.2.1 rfl).2.1 rfl rfl,
   ((MDXProvider_spec ⟨.obj [("p", .func "P")], fun _ _ => .null⟩
      [("components", .obj [("h2", .func "H")])]).2.2.2 rfl).2 rfl⟩

/-! ## Module 49042: `MDXContent` -/

/-- Claim C1, amended. For every props object `e`, `MDXContent` returns `a(e)` when the
merged component map `{...context components, ...e.components}` has no truthy `wrapper`
entry; otherwise it returns the element that `jsx` makes for that `wrapper` from
`{...e, children: jsx(a, {...e})}`. The type of that element is the wrapper, its
`children` is the single element made for `a` from `e`, and each other prop is the prop
of `e` unless the key is reserved (`key`, `ref`, `__self`, `__source`) or `e` leaves it
undefined, in which case it is the wrapper's default for it. The element made for `a`
has the props of `e` without the reserved keys. The `wrapper` of `e.components` is the
one used whenever `e.components` has that key. Called without an argument, `MDXContent`
behaves as on the empty props object. -/
theorem MDXContent_spec (rt : Runtime) (e : Fields) :
    (truthy (getProp (mergedComponents rt e) "wrapper") = false →
      M49042.MDXContent rt (some e) = M49042.a rt e) ∧
    (truthy (getProp (mergedComponents rt e) "wrapper") = true →
      M49042.MDXContent rt (some e)
        = jsx (getProp (mergedComponents rt e) "wrapper")
            (e ++ [("children", jsx M49042.a.ref e)]) ∧
      (M49042.MDXContent rt (some e)).type = getProp (mergedComponents rt e) "wrapper" ∧
      getProp (M49042.MDXContent rt (some e)).props "children" = jsx M49042.a.ref e ∧
      (∀ k, k ≠ "children" → k ∉ reservedKeys → isUndefined (getProp e k) = false →
        getProp (M49042.MDXContent rt (some e)).props k = getProp e k) ∧
      (∀ k, k ≠ "children" → k ∈ reservedKeys ∨ isUndefined (getProp e k) = true →
        getProp (M49042.MDXContent rt (some e)).props k
          = getProp (ownProps (defaultPropsOf (getProp (mergedComponents rt e) "wrapper"))) k)) ∧
    ((jsx M49042.a.ref e).type = M49042.a.ref ∧
      (∀ k, k ∉ reservedKeys → lookup? (jsx M49042.a.ref e).props k = lookup? e k) ∧
      (∀ k, k ∈ reservedKeys → lookup? (jsx M49042.a.ref e).props k = none)) ∧
    (hasProp (ownProps (getProp e "components")) "wrapper" = true →
      getProp (mergedComponents rt e) "wrapper"
        = getProp (ownProps (getProp e "components")) "wrapper") ∧
    (hasProp (ownProps (getProp e "components")) "wrapper" = false →
      getProp (mergedComponents rt e) "wrapper" = getProp (ownProps rt.context) "wrapper") ∧
    M49042.MDXContent rt none = M49042.MDXContent rt (some []) := by
  have hn : getProp (ownProps (M11151.a rt .undefined) ++ ownProps (getProp e "components"))
      "wrapper" = getProp (mergedComponents rt e) "wrapper" := by
    rw [ownProps_useMDXComponents_undefined]
    rfl
  have hstrip : ∀ k, k ≠ "children" →
      getProp (stripReserved (e ++ [("children", jsx M49042.a.ref e)])) k
        = if k ∈ reservedKeys then .undefined else getProp e k := by
    intro k hk
    have hc : ¬ "children" = k := fun h => hk h.symm
    rw [getProp_stripReserved, getProp_append_pair, if_neg hc]
  refine ⟨?_, ?_, ⟨rfl, ?_, ?_⟩, ?_, ?_, rfl⟩
  · intro hw
    simp only [M49042.h, Option.getD_some, hn, hw]
    rfl
  · intro hw
    have heq : M49042.MDXContent rt (some e)
        = jsx (getProp (mergedComponents rt e) "wrapper")
            (e ++ [("children", jsx M49042.a.ref e)]) := by
      simp only [M49042.h, Option.getD_some, hn, hw, if_true]
    refine ⟨heq, ?_, ?_, ?_, ?_⟩
    · rw [heq]
      rfl
    · rw [heq]
      show getProp (elementProps _ _) "children" = _
      rw [getProp_elementProps, getProp_stripReserved, getProp_append_pair]
      simp [reservedKeys, jsx, isUndefined]
    · intro k hk hres hdef
      rw [heq]
      show getProp (elementProps _ _) k = _
      rw [getProp_elementProps, hstrip k hk, if_neg hres, hdef]
      simp
    · intro k hk hcase
      rw [heq]
      show getProp (elementProps _ _) k = _
      rw [getProp_elementProps, hstrip k hk]
      rcases hcase with hres | hundef
      · simp [hres, isUndefined]
      · by_cases hres : k ∈ reservedKeys
        · simp [hres, isUndefined]
        · simp [hres, hundef]
  · intro k hk
    show lookup? (elementProps (.func _) e) k = _
    rw [elementProps_func, lookup?_stripReserved, if_neg hk]
  · intro k hk
    show lookup? (elementProps (.func _) e) k = _
    rw [elementProps_func, lookup?_stripReserved, if_pos hk]
  · intro hk
    unfold mergedComponents
    rw [getProp_append, if_pos hk]
  · intro hk
    unfold mergedComponents
    rw [getProp_append, hk]
    simp

/-- Instance of claim C1, amended: with the wrapper `W` in the context the page is
wrapped, and a falsy `wrapper` in `e.components` takes precedence over it, which gives
`a(e)`. -/
theorem MDXContent_spec_witness :
    M49042.MDXContent ⟨.obj [("wrapper", .func "W")], fun _ _ => .null⟩ (some [("x", .num 1)])
      = .elem (.func "W")
          [("x", .num 1), ("children", .elem M49042.a.ref [("x", .num 1)])] ∧
    M49042.MDXContent ⟨.obj [("wrapper", .func "W")], fun _ _ => .null⟩
        (some [("components", .obj [("wrapper", .undefined)])])
      = M49042.a ⟨.obj [("wrapper", .func "W")], fun _ _ => .null⟩
          [("components", .obj [("wrapper", .undefined)])] :=
  ⟨((MDXContent_spec ⟨.obj [("wrapper", .func "W")], fun _ _ => .null⟩
      [("x", .num 1)]).2.1 rfl).1,
   (MDXContent_spec ⟨.obj [("wrapper", .func "W")], fun _ _ => .null⟩
      [("components", .obj [("wrapper", .undefined)])]).1 rfl⟩

/-- Claim C1 as stated fails at the props object
`{key: "k", x: 1, components: {wrapper: W}}`: the wrapper `W` is truthy and `e` has the
prop `key`, but the element that `MDXContent` returns has no prop `key`, and neither has
the element made for `a`, so the props of neither are the props `e`. -/
theorem MDXContent_props_counterexample :
    truthy (getProp (mergedComponents Runtime.default
      [("key", .str "k"), ("x", .num 1), ("components", .obj [("wrapper", .func "W")])])
      "wrapper") = true ∧
    lookup? [("key", .str "k"), ("x", .num 1), ("components", .obj [("wrapper", .func "W")])]
      "key" = some (.str "k") ∧
    lookup? (M49042.MDXContent Runtime.default (some
      [("key", .str "k"), ("x", .num 1), ("components", .obj [("wrapper", .func "W")])])).props
      "key" = none ∧
    lookup? (getProp (M49042.MDXContent Runtime.default (some
      [("key", .str "k"), ("x", .num 1), ("components", .obj [("wrapper", .func "W")])])).props
      "children").props "key" = none :=
  ⟨rfl, rfl, rfl, rfl⟩

/-- Claim C6. For every context and every two props objects with the same `components`
field, `a` returns the same tree: no other prop influences the rendered content. -/
theorem a_depends_only_on_components (rt : Runtime) (e1 e2 : Fields)
    (hc : getProp e1 "components" = getProp e2 "components") :
    M49042.a rt e1 = M49042.a rt e2 := by
  unfold M49042.a M49042.a.n
  rw [hc]

/-- Instance of claim C6: two props objects that share `components` and differ in
their other props render the same tree. -/
theorem a_depends_only_on_components_witness :
    getProp [("components", .obj [("h2", .func "H")]), ("title", .str "one"), ("n", .num 1)]
        "components"
      = getProp [("wrapper", .func "W"), ("components", .obj [("h2", .func "H")])]
        "components" ∧
    M49042.a ⟨.obj [("p", .func "P")], fun _ _ => .null⟩
        [("components", .obj [("h2", .func "H")]), ("title", .str "one"), ("n", .num 1)]
      = M49042.a ⟨.obj [("p", .func "P")], fun _ _ => .null⟩
        [("wrapper", .func "W"), ("components", .obj [("h2", .func "H")])] :=
  ⟨rfl, a_depends_only_on_components _ _ _ rfl⟩

/-! ## Module 49042: the page records -/

/-- Claim C3. The routing fields of `metadata` are consistent: `slug` is `"/"` followed
by `id`, `permalink` is `"/autogen/docs"` followed by `slug`, `source` is
`"@site/docs/"` followed by `id` and `".md"`, `sourceDirName` is `id` without its last
path segment `"/chromadb"`, and `editUrl` ends with `"/website/docs/"` followed by `id`
and `".md"`. -/
theorem metadata_routing_consistent :
    ∃ id slug dir start : String,
      M49042.metadata.get "id" = .str id ∧
      M49042.metadata.get "slug" = .str slug ∧
      slug = "/" ++ id ∧
      M49042.metadata.get "permalink" = .str ("/autogen/docs" ++ slug) ∧
      M49042.metadata.get "source" = .str ("@site/docs/" ++ id ++ ".md") ∧
      M49042.metadata.get "sourceDirName" = .str dir ∧
      id = dir ++ "/chromadb" ∧ IsSegment "chromadb" ∧
      M49042.metadata.get "editUrl" = .str (start ++ "/website/docs/" ++ id ++ ".md") :=
  ⟨"reference/agentchat/contrib/vectordb/chromadb",
   "/reference/agentchat/contrib/vectordb/chromadb",
   "reference/agentchat/contrib/vectordb",
   "https://github.com/microsoft/autogen/edit/main",
   rfl, rfl, by decide, rfl, rfl, rfl, by decide, by decide, rfl⟩

/-- Claim C7. The navigation links of `metadata` point to sibling pages: the page's
`permalink`, `previous.permalink` and `next.permalink` are the parent path
`"/autogen/docs/reference/agentchat/contrib/vectordb/"` followed by one path segment,
which for the two links is the link's `title` (`"base"` and `"utils"`), and neither link
is the page's own permalink. -/
theorem metadata_links_are_siblings :
    ∃ parent own last prevTitle nextTitle : String,
      parent = "/autogen/docs/reference/agentchat/contrib/vectordb/" ∧
      M49042.metadata.get "permalink" = .str own ∧
      own = parent ++ last ∧ IsSegment last ∧
      (M49042.metadata.get "previous").get "title" = .str prevTitle ∧
      prevTitle = "base" ∧
      (M49042.metadata.get "previous").get "permalink" = .str (parent ++ prevTitle) ∧
      (M49042.metadata.get "next").get "title" = .str nextTitle ∧
      nextTitle = "utils" ∧
      (M49042.metadata.get "next").get "permalink" = .str (parent ++ nextTitle) ∧
      parent ++ prevTitle ≠ own ∧ parent ++ nextTitle ≠ own :=
  ⟨"/autogen/docs/reference/agentchat/contrib/vectordb/",
   "/autogen/docs/reference/agentchat/contrib/vectordb/chromadb",
   "chromadb", "base", "utils",
   rfl, rfl, by decide, by decide, rfl, rfl, rfl, rfl, rfl, rfl, by decide, by decide⟩

/-- Claim C8. `frontMatter` and `metadata` agree: `metadata.frontMatter` has the keys
and values of the exported `frontMatter`, `metadata.title` is `frontMatter.title`, that
title is `metadata.id` without its leading `"reference/"` and with every `/` replaced by
`.`, and `frontMatter.sidebar_label` is the last path segment of `metadata.id`. -/
theorem frontMatter_agrees_with_metadata :
    M49042.metadata.get "frontMatter" = M49042.frontMatter ∧
    M49042.metadata.get "title" = M49042.frontMatter.get "title" ∧
    ∃ id rest dir label : String,
      M49042.metadata.get "id" = .str id ∧
      id = "reference/" ++ rest ∧
      M49042.frontMatter.get "title" = .str (slashesToDots rest) ∧
      id = dir ++ "/" ++ label ∧ IsSegment label ∧
      M49042.frontMatter.get "sidebar_label" = .str label :=
  ⟨rfl, rfl,
   "reference/agentchat/contrib/vectordb/chromadb",
   "agentchat/contrib/vectordb/chromadb",
   "reference/agentchat/contrib/vectordb",
   "chromadb",
   rfl, by decide, rfl, by decide, by decide, rfl⟩

/-! ## Module 49042: the rendered tree -/

theorem getProp_defaults_append (xs : Fields) (t : String) (ht : t ∈ tags) :
    getProp ([("a", .str "a"), ("code", .str "code"), ("h2", .str "h2"), ("h3", .str "h3"),
      ("li", .str "li"), ("p", .str "p"), ("pre", .str "pre"), ("strong", .str "strong"),
      ("ul", .str "ul")] ++ xs) t = if hasProp xs t then getProp xs t else .str t := by
  rw [getProp_append]
  have hdef : getProp [("a", .str "a"), ("code", .str "code"), ("h2", .str "h2"),
      ("h3", .str "h3"), ("li", .str "li"), ("p", .str "p"), ("pre", .str "pre"),
      ("strong", .str "strong"), ("ul", .str "ul")] t = .str t := by
    simp only [tags, List.mem_cons, List.mem_singleton, List.not_mem_nil, or_false] at ht
    rcases ht with h | h | h | h | h | h | h | h | h <;> subst h <;> rfl
  rw [hdef]

theorem getProp_n_eq_resolveTag (rt : Runtime) (e : Fields) (t : String) (ht : t ∈ tags) :
    getProp (M49042.a.n rt e) t = resolveTag rt e t := by
  unfold M49042.a.n resolveTag
  rw [List.append_assoc, getProp_defaults_append _ t ht, ownProps_useMDXComponents_undefined,
    hasProp_append, getProp_append]
  cases h1 : hasProp (ownProps (getProp e "components")) t <;>
    cases h2 : hasProp (ownProps rt.context) t <;> simp

theorem defaultTags_default : DefaultTags Runtime.default [] := by
  intro t ht
  simp only [tags, List.mem_cons, List.mem_singleton, List.not_mem_nil, or_false] at ht
  rcases ht with h | h | h | h | h | h | h | h | h <;> subst h <;> rfl

theorem tree_congr (n m : Fields)
    (hnm : ∀ t ∈ tags, getProp n t = getProp m t) : M49042.a.tree n = M49042.a.tree m := by
  have ha := hnm "a" (by decide)
  have hcode := hnm "code" (by decide)
  have hh2 := hnm "h2" (by decide)
  have hh3 := hnm "h3" (by decide)
  have hli := hnm "li" (by decide)
  have hp := hnm "p" (by decide)
  have hpre := hnm "pre" (by decide)
  have hstrong := hnm "strong" (by decide)
  have hul := hnm "ul" (by decide)
  unfold M49042.a.tree
  rw [ha, hcode, hh2, hh3, hli, hp, hpre, hstrong, hul]

theorem a_eq_default_of_defaultTags (rt : Runtime) (e : Fields) (hd : DefaultTags rt e) :
    M49042.a rt e = M49042.a Runtime.default [] := by
  unfold M49042.a
  apply tree_congr
  intro t ht
  rw [hd t ht, defaultTags_default t ht]

theorem checkSplits_sound (check : JSVal → List JSVal → Bool) (l : List JSVal)
    (hl : checkSplits check l = true) (before : List JSVal) (v : JSVal) (after : List JSVal)
    (hsplit : l = before ++ v :: after) : check v after = true := by
  induction before generalizing l with
  | nil =>
    subst hsplit
    simp only [List.nil_append, checkSplits, Bool.and_eq_true] at hl
    exact hl.1
  | cons b bs ih =>
    subst hsplit
    simp only [List.cons_append, checkSplits, Bool.and_eq_true] at hl
    exact ih _ hl.2 rfl

theorem string_append_of_isPrefixOf (p s : String) (hp : p.data.isPrefixOf s.data = true) :
    ∃ rest : String, s = p ++ rest := by
  rw [List.isPrefixOf_iff_prefix] at hp
  obtain ⟨t, ht⟩ := hp
  refine ⟨⟨t⟩, ?_⟩
  apply String.ext
  rw [String.data_append, ← ht]

theorem signatureCheck_sound (heading : JSVal) (after : List JSVal)
    (hc : signatureCheck heading after = true) :
    ∃ (name : String) (pre code : JSVal) (rest : String),
      getProp heading.props "children" = .str name ∧
      after.find? (isTag "pre") = some pre ∧
      elementsFields pre.props = [code] ∧
      getProp pre.props "children" = code ∧
      code.type = .str "code" ∧
      getProp code.props "className" = .str "language-python" ∧
      getProp code.props "children" = .str ("def " ++ name ++ "(" ++ rest) := by
  unfold signatureCheck at hc
  split at hc
  · rename_i name ty key cty cps hname hfind
    simp only [Bool.and_eq_true, beq_iff_eq, List.isEmpty_iff] at hc
    obtain ⟨⟨⟨hkey, hty⟩, hempty⟩, hinner⟩ := hc
    split at hinner
    · rename_i cls text hcls htext
      simp only [Bool.and_eq_true, beq_iff_eq] at hinner
      obtain ⟨hlang, hpre⟩ := hinner
      obtain ⟨rest, hrest⟩ := string_append_of_isPrefixOf _ _ hpre
      subst hkey hty hlang
      refine ⟨name, _, .elem (.str "code") cps, rest, hname, hfind, ?_, ?_, rfl, hcls, ?_⟩
      · simp [JSVal.props, elementsFields, elements, hempty]
      · simp [JSVal.props, getProp, lookup?]
      · show getProp cps "children" = _
        rw [htext, hrest]
    · simp at hinner
  · simp at hc

theorem hasPlainType_sound (v : JSVal) (hv : hasPlainType v = true) :
    v.type = Fragment ∨ ∃ t ∈ tags, v.type = .str t := by
  unfold hasPlainType at hv
  split at hv
  · rename_i name hname
    left
    rw [hname, Fragment]
    simp only [beq_iff_eq] at hv
    rw [hv]
  · rename_i t ht
    right
    exact ⟨t, by simpa using hv, ht⟩
  · simp at hv

theorem agrees_tocEntry (v : JSVal) (hv : (headingLevel v).isSome = true) :
    Agrees (tocEntry v) v := by
  obtain ⟨lvl, hlvl⟩ := Option.isSome_iff_exists.mp hv
  refine ⟨?_, ?_, ?_⟩
  · simp [tocEntry, JSVal.get, getProp, lookup?]
  · simp [tocEntry, JSVal.get, getProp, lookup?, hlvl]
  · simp [tocEntry, JSVal.get, getProp, lookup?]

/-- Claim C2, amended. With the default tag mapping, the table of contents `toc` agrees
with the tree that `a` produces: the tree has exactly 10 heading elements (`h2` and `h3`), and
in document order each has the `id`, the level (2 for `h2`, 3 for `h3`) and the text of
the `toc` entry at the same position. -/
theorem toc_agrees_with_headings (rt : Runtime) (e : Fields) (hd : DefaultTags rt e) :
    (headings (M49042.a rt e)).length = 10 ∧
    M49042.toc.items.length = 10 ∧
    List.Forall₂ Agrees M49042.toc.items (headings (M49042.a rt e)) := by
  rw [a_eq_default_of_defaultTags rt e hd]
  have hitems : M49042.toc.items = (headings (M49042.a Runtime.default [])).map tocEntry := by
    rfl
  refine ⟨by rfl, by rfl, ?_⟩
  rw [hitems, List.forall₂_map_left_iff, List.forall₂_same]
  intro v hv
  exact agrees_tocEntry v (by simpa [headings] using (List.mem_filter.mp hv).2)

/-- Claim C2 as stated fails under the context `{h2: H}`: the element made for the tag
`h2` then has the type `H`, and the tree that `a` produces has 9 heading elements (`h2`
and `h3`) for the 10 entries of `toc`. -/
theorem toc_headings_counterexample :
    (headings (M49042.a ⟨.obj [("h2", .func "H")], fun _ _ => .null⟩ [])).length = 9 ∧
    M49042.toc.items.length = 10 := by
  constructor <;> rfl

/-- Instance of claim C2, amended, at the page rendered outside any provider with no props, where
the default tag mapping holds. -/
theorem toc_agrees_with_headings_witness :
    DefaultTags Runtime.default [] ∧
    (headings (M49042.a Runtime.default [])).length = 10 ∧
    M49042.toc.items.length = 10 ∧
    List.Forall₂ Agrees M49042.toc.items (headings (M49042.a Runtime.default [])) :=
  ⟨defaultTags_default, toc_agrees_with_headings Runtime.default [] defaultTags_default⟩

set_option maxRecDepth 100000 in
/-- Claim C4. With the default tag mapping, every level-3 heading of the tree that `a`
produces is followed by its signature: the next `pre` element after it in document
order contains a single `code` element, with className `language-python`, whose text
starts with `def `, the heading's text and `(`. The level-3 headings are, in order, the
nine method names. -/
theorem signatures_match_headings (rt : Runtime) (e : Fields) (hd : DefaultTags rt e) :
    (∀ (before : List JSVal) (heading : JSVal) (after : List JSVal),
      elements (M49042.a rt e) = before ++ heading :: after →
      headingLevel heading = some 3 →
      ∃ (name : String) (pre code : JSVal) (rest : String),
        getProp heading.props "children" = .str name ∧
        after.find? (isTag "pre") = some pre ∧
        elementsFields pre.props = [code] ∧
        getProp pre.props "children" = code ∧
        code.type = .str "code" ∧
        getProp code.props "className" = .str "language-python" ∧
        getProp code.props "children" = .str ("def " ++ name ++ "(" ++ rest)) ∧
    ((headings (M49042.a rt e)).filter fun v => headingLevel v = some 3).map
        (fun v => getProp v.props "children")
      = [.str "__init__", .str "create_collection", .str "get_collection",
         .str "delete_collection", .str "insert_docs", .str "update_docs",
         .str "delete_docs", .str "retrieve_docs", .str "get_docs_by_ids"] := by
  rw [a_eq_default_of_defaultTags rt e hd]
  refine ⟨?_, by rfl⟩
  intro before heading after hsplit hlevel
  have hall : checkSplits headingCheck (elements (M49042.a Runtime.default [])) = true := by
    decide!
  have hcheck := checkSplits_sound _ _ hall before heading after hsplit
  simp only [headingCheck, hlevel, bne_self_eq_false, Bool.false_or] at hcheck
  exact signatureCheck_sound heading after hcheck

/-- Instance of claim C4 at the page rendered outside any provider with no props, where
the default tag mapping holds: the nine level-3 headings, in order. -/
theorem signatures_match_headings_witness :
    DefaultTags Runtime.default [] ∧
    ((headings (M49042.a Runtime.default [])).filter fun v => headingLevel v = some 3).map
        (fun v => getProp v.props "children")
      = [.str "__init__", .str "create_collection", .str "get_collection",
         .str "delete_collection", .str "insert_docs", .str "update_docs",
         .str "delete_docs", .str "retrieve_docs", .str "get_docs_by_ids"] :=
  ⟨defaultTags_default,
   (signatures_match_headings Runtime.default [] defaultTags_default).2⟩

set_option maxRecDepth 100000 in
/-- Claim C5. For every context and every props object `e`, the tree that `a` returns is
the tree of the default tag mapping with every element created for a tag made with, for
its type, the entry that the resolution order gives that tag: the entry of
`e.components` when it has that key, otherwise the entry of the context component map
when it has that key, otherwise the plain tag name. In the default tree every element
type is a plain tag name (the root is `Fragment`), and so it is in every tree rendered
with an empty context and no `e.components`. -/
theorem a_element_types (rt : Runtime) (e : Fields) :
    (∀ t ∈ tags, getProp (M49042.a.n rt e) t = resolveTag rt e t) ∧
    M49042.a rt e = retype (resolveTag rt e) (M49042.a Runtime.default []) ∧
    (∀ v ∈ elements (M49042.a Runtime.default []),
      v.type = Fragment ∨ ∃ t ∈ tags, v.type = .str t) ∧
    (ownProps rt.context = [] → ownProps (getProp e "components") = [] →
      ∀ v ∈ elements (M49042.a rt e), v.type = Fragment ∨ ∃ t ∈ tags, v.type = .str t) := by
  have hplain : ∀ v ∈ elements (M49042.a Runtime.default []),
      v.type = Fragment ∨ ∃ t ∈ tags, v.type = .str t := by
    have hall : (elements (M49042.a Runtime.default [])).all hasPlainType = true := by
      decide!
    intro v hv
    exact hasPlainType_sound v (List.all_eq_true.mp hall v hv)
  refine ⟨getProp_n_eq_resolveTag rt e, ?_, hplain, ?_⟩
  · have hm : M49042.a rt e
        = M49042.a.tree (tags.map fun t => (t, resolveTag rt e t)) := by
      unfold M49042.a
      apply tree_congr
      intro t ht
      rw [getProp_n_eq_resolveTag rt e t ht]
      simp only [tags, List.mem_cons, List.mem_singleton, List.not_mem_nil, or_false] at ht
      rcases ht with h | h | h | h | h | h | h | h | h <;> subst h <;> rfl
    rw [hm]
    rfl
  · intro hctx hcomps
    have hd : DefaultTags rt e := by
      intro t ht
      rw [getProp_n_eq_resolveTag rt e t ht]
      simp [resolveTag, hctx, hcomps, hasProp, lookup?]
    rw [a_eq_default_of_defaultTags rt e hd]
    exact hplain

/-- Instance of claim C5: with `h2` given by both the context and `e.components`, and
`p` by the context only, the entry of `e.components` is used for `h2`, the entry of the
context for `p`, and the plain tag name for `h3`. -/
theorem a_element_types_witness :
    getProp (M49042.a.n ⟨.obj [("h2", .func "A"), ("p", .func "P")], fun _ _ => .null⟩
      [("components", .obj [("h2", .func "B")])]) "h2" = .func "B" ∧
    getProp (M49042.a.n ⟨.obj [("h2", .func "A"), ("p", .func "P")], fun _ _ => .null⟩
      [("components", .obj [("h2", .func "B")])]) "p" = .func "P" ∧
    getProp (M49042.a.n ⟨.obj [("h2", .func "A"), ("p", .func "P")], fun _ _ => .null⟩
      [("components", .obj [("h2", .func "B")])]) "h3" = .str "h3" :=
  ⟨(a_element_types ⟨.obj [("h2", .func "A"), ("p", .func "P")], fun _ _ => .null⟩
      [("components", .obj [("h2", .func "B")])]).1 "h2" (by decide),
   (a_element_types ⟨.obj [("h2", .func "A"), ("p", .func "P")], fun _ _ => .null⟩
      [("components", .obj [("h2", .func "B")])]).1 "p" (by decide),
   (a_element_types ⟨.obj [("h2", .func "A"), ("p", .func "P")], fun _ _ => .null⟩
      [("components", .obj [("h2", .func "B")])]).1 "h3" (by decide)⟩

end Chunk3159
